import Mathlib

/-!
Shallow embedding of the `listings` app of the alx_travel_app repository:
the listing/review data model (`listings/models.py`), the serializer-level
validation (`listings/serializers.py`) and the view-level operations
(`listings/views.py`), together with proofs of the spec's claims about them.

Conventions: Django model instances become Lean structures; the database is
an explicit `Store` (lists of rows); primary keys are naturals; decimal
fields are exact rationals; each HTTP operation is a function on stores
returning `Except ApiError Store`, where an `Except.error` result means the
request was rejected and the store is unchanged.
-/

namespace AlxTravel

/-- The `LISTING_TYPES` choices of `Listing.listing_type` in `models.py`. -/
inductive ListingType
  | apartment
  | house
  | villa
  | hotel
  | hostel
  | resort
deriving DecidableEq, Repr

/-- The error taxonomy of the spec (section 7): validation failures,
permission failures (the views raise Python's `PermissionError`), missing
rows (`get_object_or_404`) and database constraint breaches
(`unique_together`). -/
inductive ApiError
  | ValidationError
  | PermissionDenied
  | NotFound
  | ConstraintViolation
deriving DecidableEq, Repr

/-- A row of the `Listing` model (`models.py`, lines 22-98).  The UUID
primary key is abstracted to an opaque natural; `DecimalField`s become
rationals; `TimeField`/`DateTimeField` values become naturals (only ordering
of `created_at` matters).  Field defaults mirror the model's defaults. -/
structure Listing where
  id : ℕ
  title : String
  description : String
  location : String
  address : String := ""
  price_per_night : ℚ
  listing_type : ListingType := ListingType.apartment
  category : Option ℕ := none
  max_guests : ℕ := 1
  bedrooms : ℕ := 1
  bathrooms : ℕ := 1
  rating : ℚ := 0
  total_reviews : ℕ := 0
  latitude : Option ℚ := none
  longitude : Option ℚ := none
  amenities : String := ""
  house_rules : String := ""
  check_in_time : Option ℕ := none
  check_out_time : Option ℕ := none
  minimum_nights : ℕ := 1
  maximum_nights : ℕ := 365
  created_at : ℕ := 0
  host : ℕ
  is_active : Bool := true
  featured : Bool := false
deriving DecidableEq, Repr

/-- A row of the `Review` model (`models.py`, lines 118-139). -/
structure Review where
  id : ℕ
  listing : ℕ
  reviewer : ℕ
  rating : ℕ
  comment : String
  created_at : ℕ := 0
deriving DecidableEq, Repr

/-- A row of the `ListingImage` model (`models.py`, lines 101-115); the
image file is abstracted to its path. -/
structure ListingImage where
  id : ℕ
  listing : ℕ
  image : String
  caption : String := ""
  is_primary : Bool := false
  order : ℕ := 0
  created_at : ℕ := 0
deriving DecidableEq, Repr

/-- The database: one list of rows per model the claims touch. -/
structure Store where
  listings : List Listing
  reviews : List Review
  images : List ListingImage
deriving DecidableEq, Repr

deriving instance DecidableEq for Except

/-- Floor of a rational, written out explicitly so that the kernel can
evaluate it on concrete inputs. -/
def ratFloor (q : ℚ) : ℤ :=
  q.num.fdiv q.den

/-- Round a rational to the nearest integer, ties to the even integer --
the semantics of Python's builtin `round`. -/
def roundHalfEven (q : ℚ) : ℤ :=
  if q - ratFloor q < 1 / 2 then ratFloor q
  else if (1 : ℚ) / 2 < q - ratFloor q then ratFloor q + 1
  else if ratFloor q % 2 = 0 then ratFloor q else ratFloor q + 1

/-- `round(q, 2)` in Python: round to 2 decimal places, ties to even. -/
def round2 (q : ℚ) : ℚ :=
  (roundHalfEven (q * 100) : ℚ) / 100

/-- `listing.reviews.all()`: the reviews whose foreign key is `lid`. -/
def reviewsFor (s : Store) (lid : ℕ) : List Review :=
  s.reviews.filter fun r => r.listing == lid

/-- `self.reviews.aggregate(Avg('rating'))['rating__avg']` as an exact
rational (0 stands for the empty aggregate, which Python reports as `None`;
`update_rating` tests emptiness separately). -/
def meanRating (s : Store) (lid : ℕ) : ℚ :=
  ((reviewsFor s lid).map fun r => (r.rating : ℚ)).sum / (reviewsFor s lid).length

/-- `Listing.update_rating` (`models.py`, lines 91-98): recompute the mean
review rating; when `avg_rating` is falsy -- `None` because there are no
reviews, or `0` -- do nothing; otherwise store the rounded mean and the
review count on the listing row (pk lookup: `self.save(update_fields=...)`). -/
def update_rating (s : Store) (lid : ℕ) : Store :=
  if (reviewsFor s lid).length = 0 then s
  else if meanRating s lid = 0 then s
  else { s with listings := s.listings.map fun l =>
    if l.id == lid then
      { l with rating := round2 (meanRating s lid),
               total_reviews := (reviewsFor s lid).length }
    else l }

/-- The database write behind `super().save(*args, **kwargs)`: update the
row with the same primary key when one exists, insert otherwise. -/
def upsertReviews (rs : List Review) (rv : Review) : List Review :=
  if rs.any fun x => x.id == rv.id then
    rs.map fun x => if x.id == rv.id then rv else x
  else rs ++ [rv]

/-- `Review.save` (`models.py`, lines 136-139) over the store: the database
insert-or-update by primary key, guarded by the `unique_together
['listing', 'reviewer']` constraint (`models.py`, line 131), followed by
`self.listing.update_rating()`. -/
def reviewSave (s : Store) (rv : Review) : Except ApiError Store :=
  if s.reviews.any fun x => x.id != rv.id && x.listing == rv.listing && x.reviewer == rv.reviewer then
    Except.error ApiError.ConstraintViolation
  else
    Except.ok (update_rating { s with reviews := upsertReviews s.reviews rv } rv.listing)

/-- `ListingReviewListCreateView.perform_create` (`views.py`, lines 112-115)
plus `ReviewSerializer` validation: look the listing up by id alone
(`get_object_or_404(Listing, id=listing_id)` -- no `is_active` filter),
validate `rating` against the model validators `1..5` and require a
non-blank `comment`, then save a fresh `Review` row with pk `rid`. -/
def createReview (s : Store) (lid u rid r : ℕ) (c : String) : Except ApiError Store :=
  if (s.listings.find? fun l => l.id == lid).isNone then Except.error ApiError.NotFound
  else if r < 1 || 5 < r || c == "" then Except.error ApiError.ValidationError
  else reviewSave s { id := rid, listing := lid, reviewer := u, rating := r, comment := c, created_at := 0 }

/-- `GET /listings/{id}/reviews/`: `Review.objects.filter(listing_id=...)`
(`views.py`, lines 108-110) -- note: no `is_active` condition. -/
def listReviews (s : Store) (lid : ℕ) : List Review :=
  s.reviews.filter fun r => r.listing == lid

/-- Django's default `Model.delete()` for a `Review`: remove the row.  The
`Review` model overrides only `save`, and the optional `listings.signals`
module (`apps.py`) does not exist in the repository, so deletion has no
side effect on the parent listing. -/
def deleteReview (s : Store) (rid : ℕ) : Store :=
  { s with reviews := s.reviews.filter fun r => r.id != rid }

end AlxTravel

namespace AlxTravel

/-- The payload of a listing create/update request, as seen through
`ListingCreateUpdateSerializer` (`serializers.py`, lines 77-98): one
optional slot per writable serializer field.  `rating` and `total_reviews`
can be sent by a client but are not in the serializer's `fields` list, so
`applyPayload` ignores them. -/
structure ListingPayload where
  title : Option String := none
  description : Option String := none
  location : Option String := none
  address : Option String := none
  price_per_night : Option ℚ := none
  listing_type : Option ListingType := none
  category : Option (Option ℕ) := none
  max_guests : Option ℕ := none
  bedrooms : Option ℕ := none
  bathrooms : Option ℕ := none
  latitude : Option (Option ℚ) := none
  longitude : Option (Option ℚ) := none
  amenities : Option String := none
  house_rules : Option String := none
  check_in_time : Option (Option ℕ) := none
  check_out_time : Option (Option ℕ) := none
  minimum_nights : Option ℕ := none
  maximum_nights : Option ℕ := none
  rating : Option ℚ := none
  total_reviews : Option ℕ := none
deriving DecidableEq, Repr

/-- The serializer's required fields for a non-partial write: the model
fields without defaults among the serializer's writable fields. -/
def requiredPresent (p : ListingPayload) : Bool :=
  p.title.isSome && p.description.isSome && p.location.isSome && p.price_per_night.isSome

/-- Field-level validation of `ListingCreateUpdateSerializer`
(`serializers.py`, lines 89-98): `validate_price_per_night` rejects a
non-positive supplied price; `validate_maximum_nights` runs only when
`maximum_nights` is supplied and compares it against
`self.initial_data.get('minimum_nights', 1)` -- the request payload's
`minimum_nights`, defaulting to 1, never the stored instance's value. -/
def validatePayload (p : ListingPayload) : Bool :=
  (match p.price_per_night with
   | some v => decide (0 < v)
   | none => true)
  && (match p.maximum_nights with
      | some v => decide (p.minimum_nights.getD 1 ≤ v)
      | none => true)

/-- Apply a validated payload to a listing row: exactly the fields in the
serializer's `fields` list (`serializers.py`, lines 82-87) are written;
`rating` and `total_reviews` are not among them. -/
def applyPayload (l : Listing) (p : ListingPayload) : Listing :=
  { l with
    title := p.title.getD l.title
    description := p.description.getD l.description
    location := p.location.getD l.location
    address := p.address.getD l.address
    price_per_night := p.price_per_night.getD l.price_per_night
    listing_type := p.listing_type.getD l.listing_type
    category := p.category.getD l.category
    max_guests := p.max_guests.getD l.max_guests
    bedrooms := p.bedrooms.getD l.bedrooms
    bathrooms := p.bathrooms.getD l.bathrooms
    latitude := p.latitude.getD l.latitude
    longitude := p.longitude.getD l.longitude
    amenities := p.amenities.getD l.amenities
    house_rules := p.house_rules.getD l.house_rules
    check_in_time := p.check_in_time.getD l.check_in_time
    check_out_time := p.check_out_time.getD l.check_out_time
    minimum_nights := p.minimum_nights.getD l.minimum_nights
    maximum_nights := p.maximum_nights.getD l.maximum_nights }

/-- `POST /listings/` (`ListingListCreateView.perform_create` plus the
serializer): validate, then insert a new row with `host` the caller and
every unsupplied field at its model default (`rating = 0`,
`total_reviews = 0`, `is_active = True`, ...). -/
def createListing (s : Store) (host newId now : ℕ) (p : ListingPayload) : Except ApiError Store :=
  if !requiredPresent p then Except.error ApiError.ValidationError
  else if !validatePayload p then Except.error ApiError.ValidationError
  else Except.ok { s with listings := s.listings ++ [{
    id := newId
    title := p.title.getD ""
    description := p.description.getD ""
    location := p.location.getD ""
    address := p.address.getD ""
    price_per_night := p.price_per_night.getD 0
    listing_type := p.listing_type.getD ListingType.apartment
    category := p.category.getD none
    max_guests := p.max_guests.getD 1
    bedrooms := p.bedrooms.getD 1
    bathrooms := p.bathrooms.getD 1
    rating := 0
    total_reviews := 0
    latitude := p.latitude.getD none
    longitude := p.longitude.getD none
    amenities := p.amenities.getD ""
    house_rules := p.house_rules.getD ""
    check_in_time := p.check_in_time.getD none
    check_out_time := p.check_out_time.getD none
    minimum_nights := p.minimum_nights.getD 1
    maximum_nights := p.maximum_nights.getD 365
    created_at := now
    host := host
    is_active := true
    featured := false }] }

/-- `PUT/PATCH /listings/{id}/` (`ListingDetailView.perform_update`,
`views.py`, lines 86-90, under the framework's update flow): `get_object`
draws from `Listing.objects.filter(is_active=True)`, so an inactive or
missing listing is `NotFound`; then `serializer.is_valid(raise_exception=
True)` runs, so an invalid payload is `ValidationError` -- even for a
non-host; only then does `perform_update` reject a non-host caller (the
view raises `PermissionError`, the spec's `PermissionDenied`) before
anything is saved; finally the validated fields are written to the row.
`patchMode` distinguishes PATCH (no required-field check) from PUT. -/
def updateListing (s : Store) (actor lid : ℕ) (p : ListingPayload) (patchMode : Bool) :
    Except ApiError Store :=
  match s.listings.find? fun l => l.id == lid && l.is_active with
  | none => Except.error ApiError.NotFound
  | some l =>
    if !patchMode && !requiredPresent p then Except.error ApiError.ValidationError
    else if !validatePayload p then Except.error ApiError.ValidationError
    else if l.host ≠ actor then Except.error ApiError.PermissionDenied
    else Except.ok { s with listings := s.listings.map fun x =>
      if x.id == lid then applyPayload x p else x }

/-- `DELETE /listings/{id}/` (`ListingDetailView.perform_destroy`,
`views.py`, lines 92-98): same lookup and host gate as update; on success
the row is kept and only `is_active` is set to `False` (soft delete). -/
def destroyListing (s : Store) (actor lid : ℕ) : Except ApiError Store :=
  match s.listings.find? fun l => l.id == lid && l.is_active with
  | none => Except.error ApiError.NotFound
  | some l =>
    if l.host ≠ actor then Except.error ApiError.PermissionDenied
    else Except.ok { s with listings := s.listings.map fun x =>
      if x.id == lid then { x with is_active := false } else x }

/-- `GET /listings/{id}/` (`ListingDetailView`): the detail queryset is
`Listing.objects.filter(is_active=True)`, so a soft-deleted listing is
`NotFound`. -/
def getListing (s : Store) (lid : ℕ) : Except ApiError Listing :=
  match s.listings.find? fun l => l.id == lid && l.is_active with
  | none => Except.error ApiError.NotFound
  | some l => Except.ok l

/-- The ownership predicate of the spec (section 4.3), read off the views'
host gate (`views.py`, lines 88 and 94). -/
def can_modify (actor : ℕ) (l : Listing) : Bool :=
  l.host == actor

/-- Substring test on character lists. -/
def containsSub (hay pat : List Char) : Bool :=
  match hay with
  | [] => pat.isEmpty
  | _ :: t => pat.isPrefixOf hay || containsSub t pat

/-- Case-insensitive substring test (`icontains`). -/
def strContainsCI (hay pat : String) : Bool :=
  containsSub hay.toLower.toList pat.toLower.toList

/-- The ordering keys accepted by the list view:
`ordering_fields = ['price_per_night', 'rating', 'created_at']`
(`views.py`, line 35). -/
inductive OrderKey
  | price_per_night
  | rating
  | created_at
deriving DecidableEq, Repr

/-- A parsed `ordering` query parameter: a key and a direction. -/
structure OrderSpec where
  key : OrderKey
  desc : Bool
deriving DecidableEq, Repr

/-- The query parameters of `GET /listings/`
(`location`, `min_price`, `max_price`, `listing_type`, `search`,
`ordering`); an absent parameter is `none`. -/
structure QueryParams where
  location : Option String := none
  min_price : Option ℚ := none
  max_price : Option ℚ := none
  listing_type : Option ListingType := none
  search : Option String := none
  ordering : Option OrderSpec := none
deriving DecidableEq, Repr

/-- Modelled from the spec: the `ListingFilter` class
(`from .filters import ListingFilter`, `views.py`, line 14) is not present
in the repository snapshot, so the filter semantics follow spec section
4.4 -- location: case-insensitive substring; price range: inclusive
bounds on `price_per_night`; `listing_type`: exact enum match.  The
`search` clause embeds the view's configured framework search backend
(`search_fields = ['title', 'description', 'location']`, `views.py`,
line 34): a case-insensitive match in any of the three fields qualifies.
All supplied filter kinds are conjoined; an absent parameter imposes no
constraint. -/
def matchesFilters (p : QueryParams) (l : Listing) : Bool :=
  (match p.location with
   | some q => strContainsCI l.location q
   | none => true)
  && (match p.min_price with
      | some v => decide (v ≤ l.price_per_night)
      | none => true)
  && (match p.max_price with
      | some v => decide (l.price_per_night ≤ v)
      | none => true)
  && (match p.listing_type with
      | some t => l.listing_type == t
      | none => true)
  && (match p.search with
      | some q => strContainsCI l.title q || strContainsCI l.description q || strContainsCI l.location q
      | none => true)

/-- The comparison used to sort the list response: the supplied ordering
key and direction, or the view's default `ordering = ['-created_at']`
(`views.py`, line 36) when none is supplied. -/
def orderLe (o : Option OrderSpec) (a b : Listing) : Bool :=
  match o.getD { key := OrderKey.created_at, desc := true } with
  | { key := OrderKey.price_per_night, desc := false } => decide (a.price_per_night ≤ b.price_per_night)
  | { key := OrderKey.price_per_night, desc := true } => decide (b.price_per_night ≤ a.price_per_night)
  | { key := OrderKey.rating, desc := false } => decide (a.rating ≤ b.rating)
  | { key := OrderKey.rating, desc := true } => decide (b.rating ≤ a.rating)
  | { key := OrderKey.created_at, desc := false } => decide (a.created_at ≤ b.created_at)
  | { key := OrderKey.created_at, desc := true } => decide (b.created_at ≤ a.created_at)

/-- `GET /listings/` (`ListingListCreateView`, `views.py`, lines 26-36):
the base queryset `Listing.objects.filter(is_active=True)`, restricted by
the filter conjunction and sorted by the ordering key. -/
def listListings (s : Store) (p : QueryParams) : List Listing :=
  (s.listings.filter fun l => l.is_active && matchesFilters p l).mergeSort (orderLe p.ordering)

/-- The `unique_together ['listing', 'reviewer']` invariant (spec section 3):
no two review rows share a (listing, reviewer) pair. -/
def uniqueReviewPairs (s : Store) : Prop :=
  s.reviews.Pairwise fun a b => ¬(a.listing = b.listing ∧ a.reviewer = b.reviewer)

/-- A host user and a listing used by the concrete witnesses. -/
def wL : Listing :=
  { id := 1, title := "t", description := "d", location := "loc", price_per_night := 100, host := 5 }

/-- A store holding one listing and no reviews. -/
def wS : Store :=
  { listings := [wL], reviews := [], images := [] }

/-- `wS` after user 7 posts a rating-4 review. -/
def wS1 : Store :=
  { listings := [{ wL with rating := 4, total_reviews := 1 }],
    reviews := [{ id := 10, listing := 1, reviewer := 7, rating := 4, comment := "ok", created_at := 0 }],
    images := [] }

/-- The same review edited down to rating 2. -/
def wRv : Review :=
  { id := 10, listing := 1, reviewer := 7, rating := 2, comment := "x", created_at := 0 }

/-- `wS1` after saving the edited review `wRv`. -/
def wS3 : Store :=
  { listings := [{ wL with rating := 2, total_reviews := 1 }],
    reviews := [wRv],
    images := [] }

/-- The empty listing payload (a PATCH with no body fields). -/
def wP : ListingPayload := {}

/-- An invalid PATCH body: a non-positive price, rejected by
`validate_price_per_night`. -/
def c2P : ListingPayload := { price_per_night := some 0 }

/-- A listing whose `minimum_nights` is 10, for the nights-invariant claim. -/
def c3L : Listing :=
  { id := 2, title := "t", description := "d", location := "loc", price_per_night := 80,
    minimum_nights := 10, maximum_nights := 20, host := 5 }

/-- A store holding only `c3L`. -/
def c3S : Store :=
  { listings := [c3L], reviews := [], images := [] }

/-- A PATCH body carrying only `maximum_nights = 5`. -/
def c3P : ListingPayload := { maximum_nights := some 5 }

/-- `c3L` after the PATCH is accepted: `minimum_nights = 10 > maximum_nights = 5`. -/
def c3X : Listing := { c3L with maximum_nights := 5 }

/-- A listing carrying stale aggregates: stored `rating = 4`,
`total_reviews = 1`, but no review rows. -/
def c7L : Listing :=
  { id := 3, title := "t", description := "d", location := "loc", price_per_night := 60,
    rating := 4, total_reviews := 1, host := 5 }

/-- The store holding only `c7L`, with an empty review table. -/
def c7S : Store :=
  { listings := [c7L], reviews := [], images := [] }

/-- A PATCH body that tries to overwrite the derived fields (and the
title). -/
def wP8 : ListingPayload :=
  { title := some "t2", rating := some 99, total_reviews := some 42 }

/-- `wS` after the PATCH `wP8`: only the title changed. -/
def wS8 : Store :=
  { listings := [{ wL with title := "t2" }], reviews := [], images := [] }

/-- A create body that also tries to set the derived fields. -/
def wP9 : ListingPayload :=
  { title := some "n", description := some "nd", location := some "nl",
    price_per_night := some 70, rating := some 5, total_reviews := some 9 }

/-- The listing row produced by the create body `wP9` for host 5. -/
def wL9 : Listing :=
  { id := 9, title := "n", description := "nd", location := "nl",
    price_per_night := 70, host := 5 }

/-- `wS` after creating `wL9`. -/
def wS9 : Store :=
  { listings := [wL, wL9], reviews := [], images := [] }

/-- An empty set of list query parameters. -/
def wP6 : QueryParams := {}

end AlxTravel


namespace AlxTravel

/-! Helper lemmas about the rating aggregator and review writes. -/

theorem update_rating_reviews (s : Store) (lid : ℕ) :
    (update_rating s lid).reviews = s.reviews := by
  unfold update_rating
  split_ifs <;> rfl

theorem update_rating_images (s : Store) (lid : ℕ) :
    (update_rating s lid).images = s.images := by
  unfold update_rating
  split_ifs <;> rfl

theorem reviewsFor_update_rating (s : Store) (lid lid' : ℕ) :
    reviewsFor (update_rating s lid) lid' = reviewsFor s lid' := by
  unfold reviewsFor
  rw [update_rating_reviews]

theorem meanRating_update_rating (s : Store) (lid lid' : ℕ) :
    meanRating (update_rating s lid) lid' = meanRating s lid' := by
  unfold meanRating
  rw [reviewsFor_update_rating]

theorem update_rating_post (s : Store) (lid : ℕ)
    (h1 : reviewsFor s lid ≠ []) (h2 : meanRating s lid ≠ 0) :
    ∀ l ∈ (update_rating s lid).listings, l.id = lid →
      l.rating = round2 (meanRating s lid) ∧
      l.total_reviews = (reviewsFor s lid).length := by
  intro l hl hid
  unfold update_rating at hl
  rw [if_neg (by simpa using h1), if_neg h2] at hl
  simp only [List.mem_map] at hl
  obtain ⟨x, hx, hfx⟩ := hl
  by_cases hxid : x.id = lid
  · rw [if_pos (by simpa using hxid)] at hfx
    rw [← hfx]
    exact ⟨rfl, rfl⟩
  · rw [if_neg (by simpa using hxid)] at hfx
    exact absurd (hfx ▸ hid) hxid

theorem meanRating_pos (s : Store) (lid : ℕ) (rv : Review)
    (hm : rv ∈ reviewsFor s lid) (hr : 1 ≤ rv.rating) :
    0 < meanRating s lid := by
  unfold meanRating
  have hlen : 0 < (reviewsFor s lid).length :=
    List.length_pos.mpr (List.ne_nil_of_mem hm)
  refine div_pos ?_ (by exact_mod_cast hlen)
  have hmem : (rv.rating : ℚ) ∈ (reviewsFor s lid).map fun r => (r.rating : ℚ) :=
    List.mem_map_of_mem _ hm
  have hnn : ∀ x ∈ (reviewsFor s lid).map (fun r => (r.rating : ℚ)), 0 ≤ x := by
    intro x hx
    simp only [List.mem_map] at hx
    obtain ⟨r, _, rfl⟩ := hx
    positivity
  have hsum := List.single_le_sum hnn _ hmem
  have h1 : (1 : ℚ) ≤ (rv.rating : ℚ) := by exact_mod_cast hr
  linarith

theorem mem_upsertReviews (rs : List Review) (rv : Review) :
    rv ∈ upsertReviews rs rv := by
  unfold upsertReviews
  split_ifs with hid
  · simp only [List.any_eq_true] at hid
    obtain ⟨x, hx, hxid⟩ := hid
    refine List.mem_map.mpr ⟨x, hx, ?_⟩
    rw [if_pos hxid]
  · simp

theorem reviewSave_ok_elim (s s' : Store) (rv : Review)
    (h : reviewSave s rv = Except.ok s') :
    s' = update_rating { s with reviews := upsertReviews s.reviews rv } rv.listing := by
  unfold reviewSave at h
  split_ifs at h with hdup
  exact ((Except.ok.injEq _ _).mp h).symm

theorem reviewSave_ok_post (s s' : Store) (rv : Review)
    (hr : 1 ≤ rv.rating) (h : reviewSave s rv = Except.ok s') :
    ∀ l ∈ s'.listings, l.id = rv.listing →
      l.rating = round2 (meanRating s' rv.listing) ∧
      l.total_reviews = (reviewsFor s' rv.listing).length := by
  have hs' := reviewSave_ok_elim s s' rv h
  have hmem : rv ∈ reviewsFor { s with reviews := upsertReviews s.reviews rv } rv.listing := by
    apply List.mem_filter.mpr
    exact ⟨mem_upsertReviews _ _, by simp⟩
  have hne := List.ne_nil_of_mem hmem
  have hpos := meanRating_pos _ rv.listing rv hmem hr
  intro l hl hid
  rw [hs', meanRating_update_rating, reviewsFor_update_rating]
  exact update_rating_post _ rv.listing hne hpos.ne' l (hs' ▸ hl) hid

theorem createReview_ok_elim (s s' : Store) (lid u rid r : ℕ) (c : String)
    (h : createReview s lid u rid r c = Except.ok s') :
    1 ≤ r ∧ reviewSave s { id := rid, listing := lid, reviewer := u, rating := r, comment := c, created_at := 0 } = Except.ok s' := by
  unfold createReview at h
  split_ifs at h with h1 h2
  refine ⟨?_, h⟩
  simp only [Bool.or_eq_true, decide_eq_true_eq, not_or] at h2
  omega

end AlxTravel

namespace AlxTravel

/-- C1: for every listing, after any review create (through the review
endpoint) or update (through `Review.save`) affecting it, the listing's
stored `rating` equals the mean of its reviews' ratings rounded to 2
decimal places and its stored `total_reviews` equals its review count;
the recompute runs synchronously inside the review save. -/
theorem review_write_keeps_rating_consistent
    (s s₁ s₂ s₃ : Store) (lid u rid r : ℕ) (c : String) (rv : Review)
    (hc : createReview s lid u rid r c = Except.ok s₁)
    (hr : 1 ≤ rv.rating)
    (hs : reviewSave s₂ rv = Except.ok s₃) :
    (∀ l ∈ s₁.listings, l.id = lid →
      l.rating = round2 (meanRating s₁ lid) ∧
      l.total_reviews = (reviewsFor s₁ lid).length)
    ∧ (∀ l ∈ s₃.listings, l.id = rv.listing →
      l.rating = round2 (meanRating s₃ rv.listing) ∧
      l.total_reviews = (reviewsFor s₃ rv.listing).length) := by
  obtain ⟨hr1, hrs⟩ := createReview_ok_elim s s₁ lid u rid r c hc
  exact ⟨reviewSave_ok_post s s₁ _ hr1 hrs, reviewSave_ok_post s₂ s₃ rv hr hs⟩


/-- Witness for C1: in the one-listing store, posting a rating-4 review and
then editing it to rating 2 both leave the stored aggregates consistent. -/
theorem review_write_keeps_rating_consistent_witness :
    (∀ l ∈ wS1.listings, l.id = 1 →
      l.rating = round2 (meanRating wS1 1) ∧
      l.total_reviews = (reviewsFor wS1 1).length)
    ∧ (∀ l ∈ wS3.listings, l.id = wRv.listing →
      l.rating = round2 (meanRating wS3 wRv.listing) ∧
      l.total_reviews = (reviewsFor wS3 wRv.listing).length) :=
  review_write_keeps_rating_consistent wS wS1 wS1 wS3 1 7 10 4 "ok" wRv
    (by
      norm_num [createReview, reviewSave, upsertReviews, update_rating, reviewsFor, meanRating,
        round2, roundHalfEven, ratFloor, Int.fdiv, List.find?, wS, wS1, wL]
      intro h
      simp at h)
    (by decide)
    (by
      norm_num [reviewSave, upsertReviews, update_rating, reviewsFor, meanRating,
        round2, roundHalfEven, ratFloor, Int.fdiv, wS1, wS3, wRv, wL])

end AlxTravel

namespace AlxTravel

/-- C2 fails as stated on the code: the framework's update flow runs
`serializer.is_valid(raise_exception=True)` before `perform_update`'s host
gate, so a non-host (user 6, host is 5) sending an invalid payload (a
non-positive price) receives `ValidationError`, not `PermissionDenied`. -/
theorem host_gate_after_validation_counterexample :
    wL.host ≠ 6
    ∧ (wS.listings.find? fun x => x.id == 1 && x.is_active) = some wL
    ∧ updateListing wS 6 1 c2P true = Except.error ApiError.ValidationError
    ∧ ApiError.ValidationError ≠ ApiError.PermissionDenied := by
  refine ⟨by decide, by decide, by decide, by decide⟩

/-- C2 amended: `can_modify actor listing` holds exactly when the actor is
the listing's host; a delete attempt on an active listing by a non-host is
rejected with the permission error, and so is an update attempt whose
payload passes serializer validation (validation runs first, so an invalid
payload from a non-host yields `ValidationError` instead).  In every
rejected case the view raises before any save, so the store is unchanged
-- an `Except.error` result carries no new store. -/
theorem host_only_modification
    (a : ℕ) (l : Listing)
    (s : Store) (lid : ℕ) (p : ListingPayload) (m : Bool) (l₀ : Listing)
    (hfind : (s.listings.find? fun x => x.id == lid && x.is_active) = some l₀)
    (hhost : l₀.host ≠ a)
    (hreq : (!m && !requiredPresent p) = false)
    (hval : validatePayload p = true) :
    (can_modify a l = true ↔ a = l.host)
    ∧ updateListing s a lid p m = Except.error ApiError.PermissionDenied
    ∧ destroyListing s a lid = Except.error ApiError.PermissionDenied := by
  refine ⟨?_, ?_, ?_⟩
  · unfold can_modify
    rw [beq_iff_eq]
    exact eq_comm
  · simp only [updateListing, hfind]
    rw [if_neg (by simp [hreq]), if_neg (by simp [hval]), if_pos hhost]
  · simp only [destroyListing, hfind]
    rw [if_pos hhost]

/-- Witness for the amended C2: user 6 is not the host (5) of `wL`, so a
valid (empty-body) PATCH and a DELETE on it are both rejected. -/
theorem host_only_modification_witness :
    (can_modify 6 wL = true ↔ 6 = wL.host)
    ∧ updateListing wS 6 1 wP true = Except.error ApiError.PermissionDenied
    ∧ destroyListing wS 6 1 = Except.error ApiError.PermissionDenied :=
  host_only_modification 6 wL wS 1 wP true wL (by decide) (by decide) (by decide) (by decide)

/-- C9: deleting a review removes only the review row; the parent listing's
stored `rating` and `total_reviews` are untouched, because `Review` has no
`delete` override and no signal handler exists. -/
theorem review_delete_skips_recompute (s : Store) (rid : ℕ) :
    (deleteReview s rid).listings = s.listings
    ∧ (deleteReview s rid).images = s.images
    ∧ (deleteReview s rid).reviews = s.reviews.filter fun r => r.id != rid :=
  ⟨rfl, rfl, rfl⟩

/-- C3 fails on the code: a PATCH carrying only `maximum_nights = 5` against
a listing with `minimum_nights = 10` is accepted, because
`validate_maximum_nights` compares against the request payload's
`minimum_nights` (defaulting to 1), never the stored value; the stored row
then violates `minimum_nights ≤ maximum_nights`. -/
theorem nights_validation_gap :
    updateListing c3S 5 2 c3P true = Except.ok { c3S with listings := [c3X] }
    ∧ c3X.minimum_nights = 10 ∧ c3X.maximum_nights = 5
    ∧ c3X.maximum_nights < c3X.minimum_nights := by
  refine ⟨?_, rfl, rfl, by decide⟩
  decide

end AlxTravel

namespace AlxTravel

/-- C4: deleting a listing as its host only flips `is_active` to false --
the row count is unchanged and the row is still present -- after which the
detail endpoint answers `NotFound`, the list endpoint never returns it for
any query parameters, and its reviews and images are exactly as before. -/
theorem soft_delete_behavior
    (s : Store) (actor lid : ℕ) (l : Listing)
    (hfind : (s.listings.find? fun x => x.id == lid && x.is_active) = some l)
    (hhost : l.host = actor) :
    ∃ s', destroyListing s actor lid = Except.ok s'
      ∧ s'.listings.length = s.listings.length
      ∧ (∃ x ∈ s'.listings, x.id = lid ∧ x.is_active = false)
      ∧ getListing s' lid = Except.error ApiError.NotFound
      ∧ (∀ p x, x ∈ listListings s' p → x.id ≠ lid)
      ∧ listReviews s' lid = listReviews s lid
      ∧ s'.images = s.images := by
  have hl : l ∈ s.listings := List.mem_of_find?_eq_some hfind
  have hpred := List.find?_some hfind
  simp only [Bool.and_eq_true, beq_iff_eq] at hpred
  refine ⟨{ s with listings := s.listings.map fun x =>
      if x.id == lid then { x with is_active := false } else x }, ?_, by simp, ?_, ?_, ?_, rfl, rfl⟩
  · simp only [destroyListing, hfind]
    rw [if_neg (by simp [hhost])]
  · refine ⟨{ l with is_active := false }, ?_, hpred.1, rfl⟩
    refine List.mem_map.mpr ⟨l, hl, ?_⟩
    rw [if_pos (by simp [hpred.1])]
  · unfold getListing
    have hnone : (List.find? (fun x => x.id == lid && x.is_active)
        (s.listings.map fun x => if x.id == lid then { x with is_active := false } else x)) = none := by
      apply List.find?_eq_none.mpr
      intro x hx
      simp only [List.mem_map] at hx
      obtain ⟨y, hy, rfl⟩ := hx
      by_cases hyid : y.id = lid
      · rw [if_pos (by simp [hyid])]
        simp
      · rw [if_neg (by simp [hyid])]
        simp [hyid]
    rw [hnone]
  · intro p x hx
    unfold listListings at hx
    rw [List.mem_mergeSort, List.mem_filter] at hx
    obtain ⟨hmem, hact⟩ := hx
    simp only [List.mem_map] at hmem
    obtain ⟨y, hy, rfl⟩ := hmem
    by_cases hyid : y.id = lid
    · exfalso
      rw [if_pos (by simp [hyid])] at hact
      simp at hact
    · rw [if_neg (by simp [hyid])]
      exact hyid

/-- Witness for C4: host 5 soft-deletes listing 1 of the one-listing store. -/
theorem soft_delete_behavior_witness :
    ∃ s', destroyListing wS 5 1 = Except.ok s'
      ∧ s'.listings.length = wS.listings.length
      ∧ (∃ x ∈ s'.listings, x.id = 1 ∧ x.is_active = false)
      ∧ getListing s' 1 = Except.error ApiError.NotFound
      ∧ (∀ p x, x ∈ listListings s' p → x.id ≠ 1)
      ∧ listReviews s' 1 = listReviews wS 1
      ∧ s'.images = wS.images :=
  soft_delete_behavior wS 5 1 wL (by decide) (by decide)

/-- C7 fails on the code: `update_rating` on a listing with no reviews does
nothing (`if avg_rating:` is false for the empty aggregate), so stale
nonzero `rating`/`total_reviews` values survive a recompute instead of
being reset to 0. -/
theorem recompute_empty_counterexample :
    reviewsFor c7S 3 = []
    ∧ update_rating c7S 3 = c7S
    ∧ c7S.listings.map Listing.rating = [4]
    ∧ c7S.listings.map Listing.total_reviews = [1]
    ∧ (4 : ℚ) ≠ 0 := by
  refine ⟨by decide, by decide, by decide, by decide, by decide⟩

/-- C7 amended: `update_rating` stores the rounded mean and the review
count whenever the listing has at least one review (with ratings in the
validated range 1..5); when the review set is empty it leaves the stored
fields unchanged rather than resetting them to 0. -/
theorem recompute_amended
    (s : Store) (lid : ℕ)
    (hne : reviewsFor s lid ≠ []) (hr : ∀ rv ∈ reviewsFor s lid, 1 ≤ rv.rating)
    (s₂ : Store) (lid₂ : ℕ) (he : reviewsFor s₂ lid₂ = []) :
    (∀ l ∈ (update_rating s lid).listings, l.id = lid →
      l.rating = round2 (meanRating s lid) ∧
      l.total_reviews = (reviewsFor s lid).length)
    ∧ update_rating s₂ lid₂ = s₂ := by
  constructor
  · obtain ⟨rv, hrv⟩ := List.exists_mem_of_ne_nil _ hne
    exact update_rating_post s lid hne (meanRating_pos s lid rv hrv (hr rv hrv)).ne'
  · unfold update_rating
    rw [if_pos (by simp [he])]

/-- Witness for the amended C7: recompute on the one-review store is
consistent, and recompute on the review-less store is the identity. -/
theorem recompute_amended_witness :
    (∀ l ∈ (update_rating wS1 1).listings, l.id = 1 →
      l.rating = round2 (meanRating wS1 1) ∧
      l.total_reviews = (reviewsFor wS1 1).length)
    ∧ update_rating wS 1 = wS :=
  recompute_amended wS1 1 (by decide) (by decide) wS 1 (by decide)

end AlxTravel

namespace AlxTravel

/-- C8: `rating` and `total_reviews` are not client-writable.  Any accepted
update leaves every listing's stored `rating` and `total_reviews` exactly
as they were (whatever the payload carried for them), and an accepted
create stores `rating = 0` and `total_reviews = 0`, the values derived
from the new listing's (empty) review set. -/
theorem derived_fields_not_client_writable
    (s s' : Store) (actor lid : ℕ) (p : ListingPayload) (m : Bool)
    (hu : updateListing s actor lid p m = Except.ok s')
    (s₂ s₂' : Store) (host nid now : ℕ) (p₂ : ListingPayload)
    (hc : createListing s₂ host nid now p₂ = Except.ok s₂')
    (hfresh : reviewsFor s₂ nid = []) :
    s'.listings.map Listing.rating = s.listings.map Listing.rating
    ∧ s'.listings.map Listing.total_reviews = s.listings.map Listing.total_reviews
    ∧ (∃ l ∈ s₂'.listings, l.id = nid ∧ l.rating = 0
        ∧ l.total_reviews = (reviewsFor s₂' nid).length
        ∧ (reviewsFor s₂' nid).length = 0) := by
  unfold updateListing at hu
  split at hu
  · exact absurd hu (by simp)
  · split_ifs at hu
    have hs := (Except.ok.injEq _ _).mp hu
    subst hs
    unfold createListing at hc
    split_ifs at hc
    have hs₂ := (Except.ok.injEq _ _).mp hc
    subst hs₂
    refine ⟨?_, ?_, ?_⟩
    · rw [List.map_map]
      apply List.map_congr_left
      intro a _
      simp only [Function.comp_apply]
      split <;> rfl
    · rw [List.map_map]
      apply List.map_congr_left
      intro a _
      simp only [Function.comp_apply]
      split <;> rfl
    · have hrev : (reviewsFor { s₂ with listings := s₂.listings ++ [{
        id := nid
        title := p₂.title.getD ""
        description := p₂.description.getD ""
        location := p₂.location.getD ""
        address := p₂.address.getD ""
        price_per_night := p₂.price_per_night.getD 0
        listing_type := p₂.listing_type.getD ListingType.apartment
        category := p₂.category.getD none
        max_guests := p₂.max_guests.getD 1
        bedrooms := p₂.bedrooms.getD 1
        bathrooms := p₂.bathrooms.getD 1
        rating := 0
        total_reviews := 0
        latitude := p₂.latitude.getD none
        longitude := p₂.longitude.getD none
        amenities := p₂.amenities.getD ""
        house_rules := p₂.house_rules.getD ""
        check_in_time := p₂.check_in_time.getD none
        check_out_time := p₂.check_out_time.getD none
        minimum_nights := p₂.minimum_nights.getD 1
        maximum_nights := p₂.maximum_nights.getD 365
        created_at := now
        host := host
        is_active := true
        featured := false }] } nid) = [] := hfresh
      refine ⟨_, List.mem_append_right _ (List.mem_singleton_self _), rfl, rfl, ?_, ?_⟩
      · rw [hrev]
        rfl
      · rw [hrev]
        rfl

end AlxTravel

namespace AlxTravel

/-- Witness for C8: a PATCH carrying `rating`/`total_reviews` leaves the
stored aggregates untouched, and a create carrying them stores 0/0. -/
theorem derived_fields_not_client_writable_witness :
    wS8.listings.map Listing.rating = wS.listings.map Listing.rating
    ∧ wS8.listings.map Listing.total_reviews = wS.listings.map Listing.total_reviews
    ∧ (∃ l ∈ wS9.listings, l.id = 9 ∧ l.rating = 0
        ∧ l.total_reviews = (reviewsFor wS9 9).length
        ∧ (reviewsFor wS9 9).length = 0) :=
  derived_fields_not_client_writable wS wS8 5 1 wP8 true (by decide)
    wS wS9 5 9 0 wP9 (by decide) (by decide)

end AlxTravel

namespace AlxTravel

/-- Insert-or-update keeps review (listing, reviewer) pairs unique, given
distinct primary keys and the constraint check that no other row carries
the incoming pair. -/
theorem upsert_pairwise (rs : List Review) (rv : Review)
    (hids : rs.Pairwise fun a b => a.id ≠ b.id)
    (hu : rs.Pairwise fun a b => ¬(a.listing = b.listing ∧ a.reviewer = b.reviewer))
    (hnodup : ∀ x ∈ rs, x.id ≠ rv.id → ¬(x.listing = rv.listing ∧ x.reviewer = rv.reviewer)) :
    (upsertReviews rs rv).Pairwise fun a b => ¬(a.listing = b.listing ∧ a.reviewer = b.reviewer) := by
  unfold upsertReviews
  split_ifs with hany
  · rw [List.pairwise_map]
    refine (hids.and hu).imp_of_mem ?_
    intro a b ha hb hab
    obtain ⟨hid, hpair⟩ := hab
    by_cases haid : a.id = rv.id <;> by_cases hbid : b.id = rv.id
    · exact absurd (haid.trans hbid.symm) hid
    · rw [if_pos (beq_iff_eq.mpr haid), if_neg (by simp [hbid])]
      intro hcontra
      exact hnodup b hb hbid ⟨hcontra.1.symm, hcontra.2.symm⟩
    · rw [if_neg (by simp [haid]), if_pos (beq_iff_eq.mpr hbid)]
      intro hcontra
      exact hnodup a ha haid hcontra
    · rw [if_neg (by simp [haid]), if_neg (by simp [hbid])]
      exact hpair
  · rw [List.pairwise_append]
    have hnoid : ∀ x ∈ rs, x.id ≠ rv.id := by
      intro x hxm
      simp only [List.any_eq_true, beq_iff_eq, not_exists] at hany
      push_neg at hany
      exact hany x hxm
    refine ⟨hu, List.pairwise_singleton _ _, ?_⟩
    intro a ha b hb
    simp only [List.mem_singleton] at hb
    subst hb
    exact hnodup a ha (hnoid a ha)

/-- An accepted review create preserves the (listing, reviewer)
uniqueness invariant. -/
theorem createReview_preserves_unique
    (s₂ s₂' : Store) (lid₂ u₂ rid₂ r₂ : ℕ) (c₂ : String)
    (hu : uniqueReviewPairs s₂)
    (hids : s₂.reviews.Pairwise fun a b => a.id ≠ b.id)
    (hok : createReview s₂ lid₂ u₂ rid₂ r₂ c₂ = Except.ok s₂') :
    uniqueReviewPairs s₂' := by
  obtain ⟨-, hsave⟩ := createReview_ok_elim _ _ _ _ _ _ _ hok
  unfold reviewSave at hsave
  split_ifs at hsave with hdup
  have hs := (Except.ok.injEq _ _).mp hsave
  unfold uniqueReviewPairs
  rw [← hs, update_rating_reviews]
  apply upsert_pairwise _ _ hids hu
  intro x hxm hxid hpair
  exact absurd (List.any_eq_true.mpr ⟨x, hxm,
    by simp [bne_iff_ne, hxid, hpair.1, hpair.2]⟩) hdup

/-- C5: at most one review exists per (listing, reviewer) pair -- an
accepted create preserves the pairwise-distinct invariant -- and a second
well-formed create for an already-reviewed pair is rejected with the
store-level constraint violation. -/
theorem unique_review_per_pair
    (s : Store) (lid u rid r : ℕ) (c : String) (x : Review)
    (hx : x ∈ s.reviews) (hpair : x.listing = lid ∧ x.reviewer = u) (hxid : x.id ≠ rid)
    (hlist : (s.listings.find? fun l => l.id == lid).isSome)
    (hr : 1 ≤ r ∧ r ≤ 5) (hc : c ≠ "")
    (s₂ s₂' : Store) (lid₂ u₂ rid₂ r₂ : ℕ) (c₂ : String)
    (hu : uniqueReviewPairs s₂)
    (hids : s₂.reviews.Pairwise fun a b => a.id ≠ b.id)
    (hok : createReview s₂ lid₂ u₂ rid₂ r₂ c₂ = Except.ok s₂') :
    createReview s lid u rid r c = Except.error ApiError.ConstraintViolation
    ∧ uniqueReviewPairs s₂' := by
  refine ⟨?_, createReview_preserves_unique s₂ s₂' lid₂ u₂ rid₂ r₂ c₂ hu hids hok⟩
  unfold createReview
  rw [if_neg (by simp [Option.isNone_iff_eq_none, Option.isSome_iff_ne_none.mp hlist])]
  rw [if_neg (by
    simp only [Bool.or_eq_true, decide_eq_true_eq, beq_iff_eq]
    push_neg
    exact ⟨hr, hc⟩)]
  unfold reviewSave
  rw [if_pos (List.any_eq_true.mpr ⟨x, hx,
    by simp [bne_iff_ne, hxid, hpair.1, hpair.2]⟩)]

/-- Witness for C5: user 7 already reviewed listing 1 in `wS1`, so a second
review by user 7 is a constraint violation; and the accepted first review
(on the empty store `wS`) keeps pairs unique. -/
theorem unique_review_per_pair_witness :
    createReview wS1 1 7 11 3 "again" = Except.error ApiError.ConstraintViolation
    ∧ uniqueReviewPairs wS1 :=
  unique_review_per_pair wS1 1 7 11 3 "again"
    { id := 10, listing := 1, reviewer := 7, rating := 4, comment := "ok", created_at := 0 }
    (by decide) (by decide) (by decide) (by decide) (by decide) (by decide)
    wS wS1 1 7 10 4 "ok"
    (by simp [uniqueReviewPairs, wS]) (by simp [wS])
    (by
      norm_num [createReview, reviewSave, upsertReviews, update_rating, reviewsFor, meanRating,
        round2, roundHalfEven, ratFloor, Int.fdiv, List.find?, wS, wS1, wL]
      intro h
      simp at h)

end AlxTravel

namespace AlxTravel

/-- The list comparison is transitive for every ordering key. -/
theorem orderLe_trans (o : Option OrderSpec) (a b c : Listing)
    (h1 : orderLe o a b = true) (h2 : orderLe o b c = true) : orderLe o a c = true := by
  rcases ho : o.getD { key := OrderKey.created_at, desc := true } with ⟨k, d⟩
  cases k <;> cases d <;>
    simp only [orderLe, ho, decide_eq_true_eq] at h1 h2 ⊢ <;>
    first
      | exact le_trans h1 h2
      | exact le_trans h2 h1

/-- The list comparison is total for every ordering key. -/
theorem orderLe_total (o : Option OrderSpec) (a b : Listing) :
    (orderLe o a b || orderLe o b a) = true := by
  rcases ho : o.getD { key := OrderKey.created_at, desc := true } with ⟨k, d⟩
  cases k <;> cases d <;>
    simp only [orderLe, ho, Bool.or_eq_true, decide_eq_true_eq] <;>
    exact le_total _ _

/-- C6: the list endpoint returns exactly the active listings satisfying
the conjunction of the supplied filters (an absent parameter imposing no
constraint), sorted by the supplied ordering key or by `created_at`
descending by default; in particular an active listing priced at 100 is
returned under `min_price=50&max_price=150` and not under
`min_price=200`. -/
theorem list_endpoint_filters
    (s : Store) (p : QueryParams) (l : Listing)
    (hl : l ∈ s.listings) (ha : l.is_active = true) (hp : l.price_per_night = 100) :
    (∀ x, x ∈ listListings s p ↔ x ∈ s.listings ∧ x.is_active = true ∧ matchesFilters p x = true)
    ∧ (listListings s p).Pairwise (fun a b => orderLe p.ordering a b = true)
    ∧ l ∈ listListings s { min_price := some 50, max_price := some 150 }
    ∧ l ∉ listListings s { min_price := some 200 } := by
  have hmem : ∀ (q : QueryParams) (x : Listing),
      x ∈ listListings s q ↔ x ∈ s.listings ∧ x.is_active = true ∧ matchesFilters q x = true := by
    intro q x
    unfold listListings
    rw [List.mem_mergeSort, List.mem_filter, Bool.and_eq_true]
  refine ⟨hmem p, ?_, ?_, ?_⟩
  · exact List.sorted_mergeSort (orderLe_trans p.ordering) (orderLe_total p.ordering) _
  · refine (hmem _ l).mpr ⟨hl, ha, ?_⟩
    simp [matchesFilters, hp]
    norm_num
  · intro hcon
    have h2 := ((hmem _ l).mp hcon).2.2
    simp [matchesFilters, hp] at h2
    norm_num at h2

/-- Witness for C6: the single active listing of `wS`, priced 100, under
the default (absent) query parameters. -/
theorem list_endpoint_filters_witness :
    (∀ x, x ∈ listListings wS wP6 ↔ x ∈ wS.listings ∧ x.is_active = true ∧ matchesFilters wP6 x = true)
    ∧ (listListings wS wP6).Pairwise (fun a b => orderLe wP6.ordering a b = true)
    ∧ wL ∈ listListings wS { min_price := some 50, max_price := some 150 }
    ∧ wL ∉ listListings wS { min_price := some 200 } :=
  list_endpoint_filters wS wP6 wL (by decide) (by decide) (by decide)

end AlxTravel

namespace AlxTravel

end AlxTravel
